import Mathlib

/-!
Verification of `debug_database.py` (purlieu-studios/taskmaster2), a diagnostic
script that locates a TaskMaster SQLite database file, prints its schema, and
dumps the `Projects` and `TaskSpecs` tables to standard output.

The script is embedded shallowly:
* SQLite values are `SqlValue` (NULL, INTEGER, TEXT).
* The database engine is an oracle (`DbConn`): each query the script issues is
  answered from the record's fields; a query that would raise
  `sqlite3.OperationalError` is modelled as `Except.error msg`.
* Standard output is the list of payloads passed to `print`, in order (the real
  stream is each payload followed by a newline).
* Python exceptions that the script does not catch (`TypeError` from formatting
  `None` with a width spec, or slicing a non-string) are modelled with
  `Except`/an `exc` field; `sqlite3.OperationalError` is the only caught class.
-/

/-- A SQLite storage value as surfaced by Python's sqlite3 driver:
SQL NULL reads back as `None`, INTEGER as `int`, TEXT as `str`. -/
inductive SqlValue where
  | null : SqlValue
  | int : Int → SqlValue
  | text : String → SqlValue
deriving DecidableEq, Repr

/-- The single uncaught exception class the embedded code can raise:
Python `TypeError`, from `f"{None:w}"` or from slicing a non-string. -/
inductive PyExc where
  | typeError : PyExc
deriving DecidableEq, Repr

/-- A row of `SELECT Id, Name, TaskCount, NextNumber, LastUpdated FROM Projects`. -/
structure ProjectRow where
  id : SqlValue
  name : SqlValue
  taskCount : SqlValue
  nextNumber : SqlValue
  lastUpdated : SqlValue
deriving DecidableEq, Repr

/-- A row of `SELECT Id, ProjectId, Number, Title, Type, Status, Created FROM TaskSpecs`. -/
structure TaskRow where
  id : SqlValue
  projectId : SqlValue
  number : SqlValue
  title : SqlValue
  type : SqlValue
  status : SqlValue
  created : SqlValue
deriving DecidableEq, Repr

/-- The database connection as an oracle answering the four query shapes the
script issues. `projectsRes`/`taskSpecsBase` are `Except.error msg` when the
corresponding `SELECT` would raise `sqlite3.OperationalError msg` (table or
columns absent); `taskSpecsBase` holds the table rows in table order, before
the `ORDER BY` of the script's query is applied. -/
structure DbConn where
  tables : List String
  tableInfo : String → List (String × String)
  projectsRes : Except String (List ProjectRow)
  taskSpecsBase : Except String (List TaskRow)

/-- The environment of a run: the `LOCALAPPDATA` environment variable
(`none` when unset) and the file-existence predicate of the filesystem,
on paths as the script spells them. -/
structure Env where
  localAppData : Option String
  fileExists : String → Bool

/-- A string of `n` spaces, Python's padding filler. -/
def spaces (n : Nat) : String :=
  String.mk (List.replicate n ' ')

/-- Python's numeric default alignment for a width spec: right-justify,
padding with spaces on the left; a string at least as long as the width is
returned unchanged (no truncation). -/
def rightJust (w : Nat) (s : String) : String :=
  if s.length < w then spaces (w - s.length) ++ s else s

/-- Python's string default alignment for a width spec: left-justify,
padding with spaces on the right; a string at least as long as the width is
returned unchanged (no truncation). -/
def leftJust (w : Nat) (s : String) : String :=
  if s.length < w then s ++ spaces (w - s.length) else s

/-- Python `f"{v:w}"` on a sqlite value: an `int` is right-justified, a `str`
is left-justified, and `None.__format__` with a width spec raises `TypeError`. -/
def pyFormat (w : Nat) : SqlValue → Except PyExc String
  | SqlValue.null => Except.error PyExc.typeError
  | SqlValue.int n => Except.ok (rightJust w (toString n))
  | SqlValue.text s => Except.ok (leftJust w s)

/-- Python `v[:10]` on a sqlite value: a `str` yields its first (at most) ten
characters; `None` and `int` are not subscriptable and raise `TypeError`. -/
def pySliceTen : SqlValue → Except PyExc String
  | SqlValue.text s => Except.ok (s.take 10)
  | SqlValue.null => Except.error PyExc.typeError
  | SqlValue.int _ => Except.error PyExc.typeError

/-- Python `str(v)` / plain f-string interpolation of a sqlite value. -/
def pyStr : SqlValue → String
  | SqlValue.null => "None"
  | SqlValue.int n => toString n
  | SqlValue.text s => s

/-- A single-quote character (ASCII 39), used inside the catalog query text. -/
def quoteChar : String :=
  String.mk [Char.ofNat 39]

/-- The catalog query of the schema section (line 35 of the script). -/
def masterQuerySql : String :=
  "SELECT name FROM sqlite_master WHERE type=" ++ quoteChar ++ "table" ++ quoteChar

/-- The column-catalog query for one table (line 40 of the script). -/
def pragmaSql (t : String) : String :=
  "PRAGMA table_info(" ++ t ++ ")"

/-- The Projects query (line 48 of the script). -/
def projectsQuerySql : String :=
  "SELECT Id, Name, TaskCount, NextNumber, LastUpdated FROM Projects"

/-- The TaskSpecs query (line 63 of the script). -/
def taskQuerySql : String :=
  "SELECT Id, ProjectId, Number, Title, Type, Status, Created FROM TaskSpecs ORDER BY ProjectId, Number"

/-- SQLite's cross-type ordering for `ORDER BY` over the value classes the
model covers: NULL sorts before INTEGER, INTEGER before TEXT; integers compare
by value, text by string order. -/
def sqlLe : SqlValue → SqlValue → Bool
  | SqlValue.null, _ => true
  | SqlValue.int _, SqlValue.null => false
  | SqlValue.int m, SqlValue.int n => decide (m ≤ n)
  | SqlValue.int _, SqlValue.text _ => true
  | SqlValue.text _, SqlValue.null => false
  | SqlValue.text _, SqlValue.int _ => false
  | SqlValue.text s, SqlValue.text t => decide (s ≤ t)

/-- The sort key of `ORDER BY ProjectId, Number`: by `ProjectId`, then by
`Number` on ties. -/
def taskKeyLe (a b : TaskRow) : Bool :=
  if a.projectId = b.projectId then sqlLe a.number b.number
  else sqlLe a.projectId b.projectId

/-- The sort relation of `ORDER BY ProjectId, Number`, as a proposition. -/
def taskRowLe (a b : TaskRow) : Prop :=
  taskKeyLe a b = true

instance : DecidableRel taskRowLe :=
  fun a b => inferInstanceAs (Decidable (taskKeyLe a b = true))

/-- The effect of `ORDER BY ProjectId, Number` on the TaskSpecs table rows:
some permutation of the rows that is sorted under the key (SQLite guarantees
no more; insertion sort realises one such permutation). -/
def orderByProjectIdNumber (rows : List TaskRow) : List TaskRow :=
  List.insertionSort taskRowLe rows

/-- Line 54 of the script: one formatted Projects row,
`f"  {project[0]:2} | {project[1]:20} | {project[2]:9} | {project[3]:10} | {project[4]}"`,
with the substitutions evaluated left to right. -/
def formatProjectRow (p : ProjectRow) : Except PyExc String := do
  let a ← pyFormat 2 p.id
  let b ← pyFormat 20 p.name
  let c ← pyFormat 9 p.taskCount
  let d ← pyFormat 10 p.nextNumber
  Except.ok ("  " ++ a ++ " | " ++ b ++ " | " ++ c ++ " | " ++ d ++ " | " ++ pyStr p.lastUpdated)

/-- Line 69 of the script: one formatted TaskSpecs row,
`f"  {task[0]:2} | {task[1]:6} | {task[2]:3} | {task[3]:20} | {task[4]:7} | {task[5]:6} | {task[6][:10]}"`,
with the substitutions evaluated left to right. -/
def formatTaskRow (t : TaskRow) : Except PyExc String := do
  let a ← pyFormat 2 t.id
  let b ← pyFormat 6 t.projectId
  let c ← pyFormat 3 t.number
  let d ← pyFormat 20 t.title
  let e ← pyFormat 7 t.type
  let f ← pyFormat 6 t.status
  let g ← pySliceTen t.created
  Except.ok ("  " ++ a ++ " | " ++ b ++ " | " ++ c ++ " | " ++ d ++ " | " ++ e ++ " | " ++ f ++ " | " ++ g)

/-- The per-row print loop of a populated section: rows are printed in list
order until a row's f-string raises, which aborts the loop with that
exception and leaves the earlier lines printed. -/
def printRows {α : Type} (fmt : α → Except PyExc String) : List α → List String × Option PyExc
  | [] => ([], none)
  | r :: rs =>
    match fmt r with
    | Except.ok s =>
      let rest := printRows fmt rs
      (s :: rest.1, rest.2)
    | Except.error e => ([], some e)

/-- Lines 34-43 of the script: the schema section's printed payloads and
issued queries (the catalog query, then one PRAGMA per listed table). -/
def schemaSection (conn : DbConn) : List String × List String :=
  ("\n📋 DATABASE SCHEMA:" ::
     (conn.tables.map (fun t =>
        ("\n  📁 Table: " ++ t) ::
          (conn.tableInfo t).map (fun c => "    - " ++ c.1 ++ " (" ++ c.2 ++ ")"))).flatten,
   masterQuerySql :: conn.tables.map pragmaSql)

/-- Header line of the Projects table (line 51 of the script). -/
def projHeader : String :=
  "  ID | Name                 | TaskCount | NextNumber | LastUpdated"

/-- Separator line of the Projects table (line 52 of the script). -/
def projSep : String :=
  "  ---|----------------------|-----------|------------|-------------"

/-- Header line of the TaskSpecs table (line 66 of the script). -/
def taskHeader : String :=
  "  ID | ProjID | Num | Title                | Type    | Status | Created"

/-- Separator line of the TaskSpecs table (line 67 of the script). -/
def taskSep : String :=
  "  ---|--------|-----|----------------------|---------|--------|----------"

/-- Lines 46-58 of the script: the Projects section. An
`sqlite3.OperationalError` from the query is caught and reported inline;
a `TypeError` from a row's f-string propagates (second component). -/
def projectsSection (res : Except String (List ProjectRow)) : List String × Option PyExc :=
  match res with
  | Except.error msg => (["\n📊 PROJECTS:", "  Error reading projects: " ++ msg], none)
  | Except.ok rows =>
    if rows.isEmpty then
      (["\n📊 PROJECTS:", "  No projects found."], none)
    else
      let body := printRows formatProjectRow rows
      ("\n📊 PROJECTS:" :: projHeader :: projSep :: body.1, body.2)

/-- Lines 61-73 of the script: the TaskSpecs section. The query's `ORDER BY`
is applied to the table rows; an `sqlite3.OperationalError` is caught and
reported inline; a `TypeError` from a row's f-string propagates. -/
def tasksSection (base : Except String (List TaskRow)) : List String × Option PyExc :=
  match base with
  | Except.error msg => (["\n📝 TASK SPECS:", "  Error reading tasks: " ++ msg], none)
  | Except.ok rows =>
    let tasks := orderByProjectIdNumber rows
    if tasks.isEmpty then
      (["\n📝 TASK SPECS:", "  No task specs found."], none)
    else
      let body := printRows formatTaskRow tasks
      ("\n📝 TASK SPECS:" :: taskHeader :: taskSep :: body.1, body.2)

/-- The observable outcome of a run (or of `examine_database` alone):
printed payloads in order, SQL statements issued in order, whether a
connection was opened, whether `conn.close()` ran, and the uncaught
exception, if one escaped. -/
structure RunOut where
  output : List String
  queries : List String
  opened : Bool
  closed : Bool
  exc : Option PyExc
deriving DecidableEq, Repr

/-- Lines 25-75 of the script, `examine_database`: header, schema section,
Projects section, TaskSpecs section, then `conn.close()`. `conn.close()` is
the last statement of the straight-line body; it runs only when no exception
escaped the sections (there is no `try/finally` around it). -/
def examine_database (conn : DbConn) (db_path : String) : RunOut :=
  let schema := schemaSection conn
  let head := ("Examining database: " ++ db_path) :: String.mk (List.replicate 60 '=') :: schema.1
  let qs := schema.2 ++ [projectsQuerySql]
  let proj := projectsSection conn.projectsRes
  match proj.2 with
  | some e => ⟨head ++ proj.1, qs, true, false, some e⟩
  | none =>
    let qs := qs ++ [taskQuerySql]
    let tasks := tasksSection conn.taskSpecsBase
    match tasks.2 with
    | some e => ⟨head ++ proj.1 ++ tasks.1, qs, true, false, some e⟩
    | none => ⟨head ++ proj.1 ++ tasks.1, qs, true, true, none⟩

/-- Lines 10-23 of the script, `find_database`: the `LOCALAPPDATA` candidate
is used only when the variable is set to a non-empty string (Python
truthiness of `if local_app_data:`) and the file exists; otherwise
`taskmaster.db` in the current directory; otherwise `None`. -/
def find_database (env : Env) : Option String :=
  let fromAppData : Option String :=
    match env.localAppData with
    | some s =>
      if s ≠ "" ∧ env.fileExists (s ++ "/TaskMaster/taskmaster.db") then
        some (s ++ "/TaskMaster/taskmaster.db")
      else none
    | none => none
  match fromAppData with
  | some p => some p
  | none => if env.fileExists "taskmaster.db" then some "taskmaster.db" else none

/-- Lines 84-87 of the script: the not-found report, listing the two
candidate locations (`os.environ.get('LOCALAPPDATA', 'LOCALAPPDATA')`
falls back to the literal string when the variable is unset). -/
def notFoundLines (env : Env) : List String :=
  ["❌ Could not find taskmaster.db database file.",
   "   Expected locations:",
   "   - " ++ env.localAppData.getD "LOCALAPPDATA" ++ "/TaskMaster/taskmaster.db",
   "   - ./taskmaster.db"]

/-- Lines 92-96 of the script: the trailing guidance printed after a normal
return from `examine_database`. -/
def trailerLines : List String :=
  ["\n✅ Database examination complete!",
   "\nIf you see issues:",
   "1. No projects: Create a project in TaskMaster first",
   "2. Missing NextNumber column: Database migration may have failed",
   "3. No task specs: Try saving a spec and check again"]

/-- Lines 77-96 of the script, `main`: banner, locate the database; if not
found, print the report and return without opening a connection; otherwise
examine it (an exception escaping `examine_database` also escapes `main`,
skipping the trailer). `connect` is the engine oracle for the path handed to
`sqlite3.connect`. -/
def main_run (env : Env) (connect : String → DbConn) : RunOut :=
  let banner := ["🔍 TaskMaster Database Debugger", String.mk (List.replicate 40 '=')]
  match find_database env with
  | none => ⟨banner ++ notFoundLines env, [], false, false, none⟩
  | some p =>
    let r := examine_database (connect p) p
    match r.exc with
    | some e => ⟨banner ++ r.output, r.queries, true, false, some e⟩
    | none => ⟨banner ++ r.output ++ trailerLines, r.queries, true, true, none⟩

/-- A read-only SQL statement: one whose text is a `SELECT ...` or a
`PRAGMA ...`; neither statement class writes to the database. -/
def isReadStmt (q : String) : Prop :=
  (∃ r, q = "SELECT " ++ r) ∨ (∃ r, q = "PRAGMA " ++ r)

/-- An environment whose `LOCALAPPDATA` is set to the empty string while the
app-data candidate file exists and the current-directory file does not. -/
def envEmptyVar : Env :=
  ⟨some "", fun p => !(p == "taskmaster.db")⟩

/-- An environment with a conventional app-data directory containing the
database. -/
def envAppData : Env :=
  ⟨some "C:/Users/u/AppData/Local",
   fun p => p == "C:/Users/u/AppData/Local/TaskMaster/taskmaster.db"⟩

/-- A database connection whose queries all succeed with no rows. -/
def connEmptyOk : DbConn :=
  ⟨[], fun _ => [], Except.ok [], Except.ok []⟩

/-- An environment in which no candidate file exists. -/
def envNotFound : Env :=
  ⟨none, fun _ => false⟩

/-- A database whose `TaskSpecs.Created` column holds SQL NULL in one row:
the row format's `task[6][:10]` then raises `TypeError`. -/
def connNullCreated : DbConn :=
  ⟨["TaskSpecs"], fun _ => [("Id", "INTEGER")], Except.ok [],
   Except.ok [⟨SqlValue.int 1, SqlValue.int 1, SqlValue.int 1, SqlValue.text "Fix bug",
       SqlValue.text "bug", SqlValue.text "open", SqlValue.null⟩]⟩

/-- Whether a sqlite value is a TEXT value (reads back as a Python `str`). -/
def SqlValue.isText : SqlValue → Bool
  | SqlValue.text _ => true
  | _ => false

/-- An environment whose only database file is `taskmaster.db` in the current
directory. -/
def envCwd : Env :=
  ⟨none, fun p => p == "taskmaster.db"⟩

/-- A database in which both table queries fail with
`sqlite3.OperationalError` (tables absent). -/
def connBothErr : DbConn :=
  ⟨[], fun _ => [], Except.error "no such table: Projects",
   Except.error "no such table: TaskSpecs"⟩

deriving instance DecidableEq for Except

/-! Order-theoretic facts about the `ORDER BY` key. -/

theorem spaces_length (n : Nat) : (spaces n).length = n := by
  simp [spaces, String.length]

theorem sqlLe_total (a b : SqlValue) : sqlLe a b = true ∨ sqlLe b a = true := by
  cases a <;> cases b <;> simp [sqlLe]
  · exact Int.le_total _ _
  · exact le_total _ _

theorem sqlLe_trans {a b c : SqlValue} (h1 : sqlLe a b = true) (h2 : sqlLe b c = true) :
    sqlLe a c = true := by
  cases a <;> cases b <;> cases c <;> simp_all [sqlLe]
  · exact le_trans h1 h2
  · exact le_trans h1 h2

theorem sqlLe_antisymm {a b : SqlValue} (h1 : sqlLe a b = true) (h2 : sqlLe b a = true) :
    a = b := by
  cases a <;> cases b <;> simp_all [sqlLe]
  · exact le_antisymm h1 h2
  · exact String.ext (le_antisymm (α := List Char) h1 h2)

theorem taskKeyLe_total (a b : TaskRow) : taskKeyLe a b = true ∨ taskKeyLe b a = true := by
  unfold taskKeyLe
  by_cases h : a.projectId = b.projectId
  · simp [h]
    exact sqlLe_total _ _
  · rw [if_neg h, if_neg (fun hb => h hb.symm)]
    exact sqlLe_total _ _

theorem taskKeyLe_trans {a b c : TaskRow} (h1 : taskKeyLe a b = true)
    (h2 : taskKeyLe b c = true) : taskKeyLe a c = true := by
  unfold taskKeyLe at *
  by_cases e1 : a.projectId = b.projectId <;> by_cases e2 : b.projectId = c.projectId
  · rw [if_pos e1] at h1
    rw [if_pos e2] at h2
    rw [if_pos (e1.trans e2)]
    exact sqlLe_trans h1 h2
  · rw [if_pos e1] at h1
    rw [if_neg e2] at h2
    rw [if_neg (fun h => e2 (e1 ▸ h)), e1]
    exact h2
  · rw [if_neg e1] at h1
    rw [if_pos e2] at h2
    rw [if_neg (fun h => e1 (h.trans e2.symm)), ← e2]
    exact h1
  · rw [if_neg e1] at h1
    rw [if_neg e2] at h2
    by_cases e3 : a.projectId = c.projectId
    · exact absurd (sqlLe_antisymm h1 (e3 ▸ h2)) e1
    · rw [if_neg e3]
      exact sqlLe_trans h1 h2

/-! Claim theorems. -/

/-- C7: for every database state in which the TaskSpecs query succeeds, the
rows of the TaskSpecs section are printed in the order produced by the
query's `ORDER BY ProjectId, Number`: sorted by ProjectId ascending and,
within equal ProjectId, by Number ascending (a permutation of the table's
rows). -/
theorem taskSpecs_rows_sorted (rows : List TaskRow) :
    List.Pairwise taskRowLe (orderByProjectIdNumber rows) ∧
    (orderByProjectIdNumber rows).Perm rows := by
  haveI : IsTotal TaskRow taskRowLe := ⟨fun a b => taskKeyLe_total a b⟩
  haveI : IsTrans TaskRow taskRowLe := ⟨fun _ _ _ h1 h2 => taskKeyLe_trans h1 h2⟩
  exact ⟨List.sorted_insertionSort taskRowLe rows, List.perm_insertionSort taskRowLe rows⟩

/-- C8: every printed TaskSpecs row renders the Created column as the first
ten characters of its stored value; in particular the stored value
`2024-01-01T00:00:00` prints as `2024-01-01`. -/
theorem created_rendered_first_ten (i pid n : Int) (ti ty st cr : String) :
    formatTaskRow ⟨SqlValue.int i, SqlValue.int pid, SqlValue.int n, SqlValue.text ti,
        SqlValue.text ty, SqlValue.text st, SqlValue.text cr⟩
      = Except.ok ("  " ++ rightJust 2 (toString i) ++ " | " ++ rightJust 6 (toString pid)
          ++ " | " ++ rightJust 3 (toString n) ++ " | " ++ leftJust 20 ti ++ " | "
          ++ leftJust 7 ty ++ " | " ++ leftJust 6 st ++ " | " ++ cr.take 10) ∧
    pySliceTen (SqlValue.text "2024-01-01T00:00:00") = Except.ok "2024-01-01" :=
  ⟨rfl, by decide⟩

set_option maxRecDepth 8192 in
/-- C2 (counterexample): a Name value of 24 characters is printed in full by
the Projects row format, not truncated to the declared width 20, so string
columns are not "truncated to the width". -/
theorem long_name_not_truncated :
    pyFormat 20 (SqlValue.text "ThisProjectNameIsTooLong")
        = Except.ok "ThisProjectNameIsTooLong" ∧
    ("ThisProjectNameIsTooLong" : String).length = 24 ∧
    pyFormat 20 (SqlValue.text "ThisProjectNameIsTooLong")
        ≠ Except.ok (("ThisProjectNameIsTooLong" : String).take 20) := by
  refine ⟨by decide, by decide, by decide⟩

/-- C2 (amended): a string column value shorter than its declared width is
padded (left-justified) to exactly the width; a value at least as long as
the width is printed unchanged, never truncated. -/
theorem pyFormat_pads_never_truncates (s : String) (w : Nat) :
    pyFormat w (SqlValue.text s) = Except.ok (leftJust w s) ∧
    (w ≤ s.length → leftJust w s = s) ∧
    (s.length ≤ w → (leftJust w s).length = w) := by
  refine ⟨rfl, ?_, ?_⟩
  · intro h
    unfold leftJust
    rw [if_neg (by omega)]
  · intro h
    unfold leftJust
    by_cases hlt : s.length < w
    · rw [if_pos hlt, String.length_append, spaces_length]
      omega
    · rw [if_neg hlt]
      omega

/-- Witness for C2's amended theorem at width 20 and the four-character
value `Demo`. -/
theorem pyFormat_pads_never_truncates_witness :
    pyFormat 20 (SqlValue.text "Demo") = Except.ok (leftJust 20 "Demo") ∧
    (leftJust 20 "Demo").length = 20 :=
  ⟨(pyFormat_pads_never_truncates "Demo" 20).1,
   (pyFormat_pads_never_truncates "Demo" 20).2.2 (by decide)⟩

/-- C4 (counterexample): with `LOCALAPPDATA` set to the empty string and the
app-data candidate existing, `find_database` returns the not-found signal
instead of the candidate: Python's `if local_app_data:` treats an empty
value as unset, so "set and the file exists" does not suffice. -/
theorem find_database_empty_var_skipped :
    envEmptyVar.localAppData = some "" ∧
    envEmptyVar.fileExists ("" ++ "/TaskMaster/taskmaster.db") = true ∧
    find_database envEmptyVar = none := by
  refine ⟨rfl, by decide, by decide⟩

/-- C4 (amended): `find_database` checks the candidates in fixed priority
order, with the app-data candidate used only when the environment variable is
set to a non-empty string: then, if that file exists it is returned; otherwise
`taskmaster.db` in the current directory if it exists; otherwise `none`. -/
theorem find_database_priority (env : Env) :
    (∀ s, env.localAppData = some s → s ≠ "" →
      env.fileExists (s ++ "/TaskMaster/taskmaster.db") = true →
      find_database env = some (s ++ "/TaskMaster/taskmaster.db")) ∧
    ((∀ s, env.localAppData = some s →
        s = "" ∨ env.fileExists (s ++ "/TaskMaster/taskmaster.db") = false) →
      env.fileExists "taskmaster.db" = true →
      find_database env = some "taskmaster.db") ∧
    ((∀ s, env.localAppData = some s →
        s = "" ∨ env.fileExists (s ++ "/TaskMaster/taskmaster.db") = false) →
      env.fileExists "taskmaster.db" = false →
      find_database env = none) := by
  refine ⟨?_, ?_, ?_⟩
  · intro s hs hne hex
    simp [find_database, hs, hne, hex]
  · intro h hrel
    cases hs : env.localAppData with
    | none => simp [find_database, hs, hrel]
    | some s =>
      rcases h s hs with he | hnx
      · simp [find_database, hs, he, hrel]
      · simp [find_database, hs, hnx, hrel]
  · intro h hrel
    cases hs : env.localAppData with
    | none => simp [find_database, hs, hrel]
    | some s =>
      rcases h s hs with he | hnx
      · simp [find_database, hs, he, hrel]
      · simp [find_database, hs, hnx, hrel]

/-- Witness for C4's amended theorem: the app-data candidate wins when the
variable is non-empty and the file exists. -/
theorem find_database_priority_witness :
    find_database envAppData = some ("C:/Users/u/AppData/Local" ++ "/TaskMaster/taskmaster.db") :=
  (find_database_priority envAppData).1 "C:/Users/u/AppData/Local" rfl (by decide) (by decide)

/-- C9: the run is a pure function of the environment variable, the
filesystem and the database state, so two runs over identical inputs produce
byte-identical standard output. -/
theorem output_deterministic (env₁ env₂ : Env) (connect₁ connect₂ : String → DbConn)
    (henv : env₁ = env₂) (hconn : connect₁ = connect₂) :
    (main_run env₁ connect₁).output = (main_run env₂ connect₂).output := by
  subst henv
  subst hconn
  rfl

/-- Witness for C9 at a concrete environment and database. -/
theorem output_deterministic_witness :
    (main_run envNotFound (fun _ => connEmptyOk)).output =
      (main_run envNotFound (fun _ => connEmptyOk)).output :=
  output_deterministic envNotFound envNotFound (fun _ => connEmptyOk) (fun _ => connEmptyOk) rfl rfl

/-- C5: when neither candidate location contains the database file, `main`
prints the banner and the not-found report naming both candidate locations,
issues no query, never opens a connection, and returns normally with no
exception. -/
theorem main_run_not_found (env : Env) (connect : String → DbConn)
    (h1 : ∀ s, env.localAppData = some s →
      env.fileExists (s ++ "/TaskMaster/taskmaster.db") = false)
    (h2 : env.fileExists "taskmaster.db" = false) :
    main_run env connect =
      ⟨["🔍 TaskMaster Database Debugger", String.mk (List.replicate 40 '='),
        "❌ Could not find taskmaster.db database file.",
        "   Expected locations:",
        "   - " ++ env.localAppData.getD "LOCALAPPDATA" ++ "/TaskMaster/taskmaster.db",
        "   - ./taskmaster.db"],
       [], false, false, none⟩ := by
  have hf : find_database env = none := by
    cases hs : env.localAppData with
    | none => simp [find_database, hs, h2]
    | some s => simp [find_database, hs, h1 s hs, h2]
  simp [main_run, hf, notFoundLines]

/-- Witness for C5 at a concrete empty filesystem. -/
theorem main_run_not_found_witness :
    main_run envNotFound (fun _ => connEmptyOk) =
      ⟨["🔍 TaskMaster Database Debugger", String.mk (List.replicate 40 '='),
        "❌ Could not find taskmaster.db database file.",
        "   Expected locations:",
        "   - " ++ (envNotFound.localAppData.getD "LOCALAPPDATA") ++ "/TaskMaster/taskmaster.db",
        "   - ./taskmaster.db"],
       [], false, false, none⟩ :=
  main_run_not_found envNotFound (fun _ => connEmptyOk) (fun s h => by cases h) rfl

/-- C1 (counterexample): on a database with a NULL `Created` value the
`TypeError` raised while printing the TaskSpecs section escapes
`examine_database`, and `conn.close()` — the plain last statement of the
function, with no `try/finally` — never runs: the connection is not closed
on this exit path. -/
theorem examine_database_unclosed_on_exception :
    (examine_database connNullCreated "taskmaster.db").exc = some PyExc.typeError ∧
    (examine_database connNullCreated "taskmaster.db").closed = false := by
  refine ⟨by decide, by decide⟩

/-- C1 (amended): the connection is closed on every exit path on which
`examine_database` returns normally — including the paths where a section's
`sqlite3.OperationalError` was caught — but not on an exit via an uncaught
exception. -/
theorem examine_database_closed_of_no_exc (conn : DbConn) (p : String)
    (h : (examine_database conn p).exc = none) :
    (examine_database conn p).closed = true := by
  cases hp : (projectsSection conn.projectsRes).2 with
  | some e => simp [examine_database, hp] at h
  | none =>
    cases ht : (tasksSection conn.taskSpecsBase).2 with
    | some e => simp [examine_database, hp, ht] at h
    | none => simp [examine_database, hp, ht]

/-- Witness for C1's amended theorem at a concrete succeeding database. -/
theorem examine_database_closed_of_no_exc_witness :
    (examine_database connEmptyOk "taskmaster.db").closed = true :=
  examine_database_closed_of_no_exc connEmptyOk "taskmaster.db" (by decide)

/-- C6: a per-query `sqlite3.OperationalError` is caught within its section:
a failed Projects query prints its inline error message and the TaskSpecs
query is still issued; a failed TaskSpecs query (when the Projects section
raised nothing) prints its inline error message and `examine_database`
returns normally, closing the connection. -/
theorem examine_per_query_errors (conn : DbConn) (p : String) :
    (∀ msg, conn.projectsRes = Except.error msg →
      ("  Error reading projects: " ++ msg) ∈ (examine_database conn p).output ∧
      taskQuerySql ∈ (examine_database conn p).queries) ∧
    (∀ msg, conn.taskSpecsBase = Except.error msg →
      (projectsSection conn.projectsRes).2 = none →
      ("  Error reading tasks: " ++ msg) ∈ (examine_database conn p).output ∧
      (examine_database conn p).exc = none ∧
      (examine_database conn p).closed = true) := by
  constructor
  · intro msg hm
    have hp : projectsSection conn.projectsRes =
        (["\n📊 PROJECTS:", "  Error reading projects: " ++ msg], none) := by
      simp [projectsSection, hm]
    cases ht : (tasksSection conn.taskSpecsBase).2 with
    | some e => constructor <;> simp [examine_database, hp, ht]
    | none => constructor <;> simp [examine_database, hp, ht]
  · intro msg hm hpn
    have ht : tasksSection conn.taskSpecsBase =
        (["\n📝 TASK SPECS:", "  Error reading tasks: " ++ msg], none) := by
      simp [tasksSection, hm]
    refine ⟨?_, ?_, ?_⟩ <;> simp [examine_database, hpn, ht]

/-- Witness for C6 on a database where both table queries fail: both inline
messages are printed and the function returns normally. -/
theorem examine_per_query_errors_witness :
    ("  Error reading projects: no such table: Projects")
        ∈ (examine_database connBothErr "taskmaster.db").output ∧
    ("  Error reading tasks: no such table: TaskSpecs")
        ∈ (examine_database connBothErr "taskmaster.db").output ∧
    (examine_database connBothErr "taskmaster.db").exc = none :=
  ⟨((examine_per_query_errors connBothErr "taskmaster.db").1 "no such table: Projects" rfl).1,
   (((examine_per_query_errors connBothErr "taskmaster.db").2 "no such table: TaskSpecs" rfl
      (by decide)).1),
   (((examine_per_query_errors connBothErr "taskmaster.db").2 "no such table: TaskSpecs" rfl
      (by decide)).2.1)⟩

theorem isReadStmt_master : isReadStmt masterQuerySql :=
  Or.inl ⟨"name FROM sqlite_master WHERE type=" ++ quoteChar ++ "table" ++ quoteChar, by decide⟩

theorem isReadStmt_pragma (t : String) : isReadStmt (pragmaSql t) := by
  right
  refine ⟨"table_info(" ++ t ++ ")", ?_⟩
  have h : ("PRAGMA " ++ "table_info(" : String) = "PRAGMA table_info(" := rfl
  unfold pragmaSql
  rw [← String.append_assoc, ← String.append_assoc, h]

theorem isReadStmt_projects : isReadStmt projectsQuerySql :=
  Or.inl ⟨"Id, Name, TaskCount, NextNumber, LastUpdated FROM Projects", by decide⟩

theorem isReadStmt_tasks : isReadStmt taskQuerySql :=
  Or.inl
    ⟨"Id, ProjectId, Number, Title, Type, Status, Created FROM TaskSpecs ORDER BY ProjectId, Number",
     by decide⟩

theorem examine_queries_shape (conn : DbConn) (p : String) :
    ∀ q ∈ (examine_database conn p).queries,
      q = masterQuerySql ∨ (∃ t, q = pragmaSql t) ∨ q = projectsQuerySql ∨ q = taskQuerySql := by
  intro q hq
  cases hp : (projectsSection conn.projectsRes).2 with
  | some e =>
    simp [examine_database, schemaSection, hp, List.mem_map] at hq
    rcases hq with h | ⟨t, _, h⟩ | h
    · exact Or.inl h
    · exact Or.inr (Or.inl ⟨t, h.symm⟩)
    · exact Or.inr (Or.inr (Or.inl h))
  | none =>
    cases ht : (tasksSection conn.taskSpecsBase).2 with
    | some e =>
      simp [examine_database, schemaSection, hp, ht, List.mem_map] at hq
      rcases hq with h | ⟨t, _, h⟩ | h | h
      · exact Or.inl h
      · exact Or.inr (Or.inl ⟨t, h.symm⟩)
      · exact Or.inr (Or.inr (Or.inl h))
      · exact Or.inr (Or.inr (Or.inr h))
    | none =>
      simp [examine_database, schemaSection, hp, ht, List.mem_map] at hq
      rcases hq with h | ⟨t, _, h⟩ | h | h
      · exact Or.inl h
      · exact Or.inr (Or.inl ⟨t, h.symm⟩)
      · exact Or.inr (Or.inr (Or.inl h))
      · exact Or.inr (Or.inr (Or.inr h))

/-- C3: every SQL statement a complete run issues is a read statement (the
`sqlite_master` catalog query, a `table_info` PRAGMA, or one of the two
table SELECTs); no write statement is ever issued, so the database state is
unchanged by a run. -/
theorem main_run_readonly (env : Env) (connect : String → DbConn) :
    ∀ q ∈ (main_run env connect).queries, isReadStmt q := by
  intro q hq
  cases hf : find_database env with
  | none => simp [main_run, hf] at hq
  | some pth =>
    have hq2 : q ∈ (examine_database (connect pth) pth).queries := by
      cases he : (examine_database (connect pth) pth).exc <;> simp_all [main_run, hf]
    rcases examine_queries_shape (connect pth) pth q hq2 with h | ⟨t, h⟩ | h | h
    · exact h ▸ isReadStmt_master
    · exact h ▸ isReadStmt_pragma t
    · exact h ▸ isReadStmt_projects
    · exact h ▸ isReadStmt_tasks

/-- Witness for C3: the catalog query issued by a concrete run is a read
statement. -/
theorem main_run_readonly_witness : isReadStmt masterQuerySql :=
  main_run_readonly envCwd (fun _ => connEmptyOk) masterQuerySql (by decide)


theorem formatTaskRow_ok_created_text {t : TaskRow} {s : String}
    (h : formatTaskRow t = Except.ok s) : t.created.isText = true := by
  simp only [formatTaskRow, bind, Except.bind] at h
  repeat' split at h
  any_goals exact Except.noConfusion h
  rename_i heq
  cases hc : t.created
  all_goals first
    | (rw [hc] at heq
       exact Except.noConfusion heq)
    | rfl

theorem printRows_error_of_bad_created {l : List TaskRow}
    (h : ∃ t ∈ l, t.created.isText = false) :
    (printRows formatTaskRow l).2 = some PyExc.typeError := by
  induction l with
  | nil =>
    rcases h with ⟨t, ht, _⟩
    cases ht
  | cons r rs ih =>
    unfold printRows
    cases hr : formatTaskRow r with
    | error e =>
      cases e
      rfl
    | ok s =>
      dsimp only
      rcases h with ⟨t, ht, hbad⟩
      rcases List.mem_cons.mp ht with rfl | hmem
      · rw [formatTaskRow_ok_created_text hr] at hbad
        cases hbad
      · exact ih ⟨t, hmem, hbad⟩

/-- C10: when a returned TaskSpecs row holds a non-string `Created` value
(e.g. SQL NULL), the `task[6][:10]` slice raises `TypeError`, which the
section's `sqlite3.OperationalError` handler does not catch: the exception
escapes `examine_database` and the connection is never closed. -/
theorem null_created_uncaught_typeerror (conn : DbConn) (p : String) (rows : List TaskRow)
    (hbase : conn.taskSpecsBase = Except.ok rows)
    (hbad : ∃ t ∈ rows, t.created.isText = false) :
    (examine_database conn p).exc = some PyExc.typeError ∧
    (examine_database conn p).closed = false := by
  rcases hbad with ⟨t, ht, hbadt⟩
  have hmem : t ∈ orderByProjectIdNumber rows :=
    (List.perm_insertionSort taskRowLe rows).mem_iff.mpr ht
  have hsnd : (printRows formatTaskRow (orderByProjectIdNumber rows)).2
      = some PyExc.typeError :=
    printRows_error_of_bad_created ⟨t, hmem, hbadt⟩
  have hts : (tasksSection conn.taskSpecsBase).2 = some PyExc.typeError := by
    rw [hbase]
    unfold tasksSection
    dsimp only
    rw [if_neg (by simp [List.isEmpty_iff]; exact List.ne_nil_of_mem hmem)]
    exact hsnd
  cases hp : (projectsSection conn.projectsRes).2 with
  | some e =>
    cases e
    constructor <;> simp [examine_database, hp]
  | none =>
    constructor <;> simp [examine_database, hp, hts]

/-- Witness for C10 on the concrete database with one NULL `Created` row. -/
theorem null_created_uncaught_typeerror_witness :
    (examine_database connNullCreated "p").exc = some PyExc.typeError ∧
    (examine_database connNullCreated "p").closed = false :=
  null_created_uncaught_typeerror connNullCreated "p"
    [⟨SqlValue.int 1, SqlValue.int 1, SqlValue.int 1, SqlValue.text "Fix bug",
      SqlValue.text "bug", SqlValue.text "open", SqlValue.null⟩]
    rfl
    ⟨⟨SqlValue.int 1, SqlValue.int 1, SqlValue.int 1, SqlValue.text "Fix bug",
      SqlValue.text "bug", SqlValue.text "open", SqlValue.null⟩, by decide, rfl⟩
